import Mathlib

/-!
Shallow embedding of the configuration core of gitmoji-rs:
the data model and merge (src/model.rs), the catalog setters,
the remote update flow (src/cmd/update.rs), the configuration
reading flow (src/cmd/config.rs) and the commit-title formatting
(src/cmd/mod.rs).  Machine types are embedded as follows: Rust
String as Lean String, Url as the String it renders to, bool as
Bool, OffsetDateTime as a Nat timestamp, Vec as List, and
HashMap as an association list whose key column is the map key
set (iteration order of the map being unspecified).  Fallible
operations return Except; the network fetch and the TOML/JSON
parsers are oracles passed in as Except-valued arguments, and
persistence is made observable as the list of configurations
handed to the config store for writing.
-/

/-- The default URL used for update (src/model.rs, DEFAULT_URL). -/
def DEFAULT_URL : String := "https://gitmoji.dev/api/gitmojis"

/-- The commit specification (src/model.rs, CommitSpecification). -/
inductive CommitSpecification where
  | Default
  | ConventionalEmojiCommits
  deriving DecidableEq, Repr

/-- The emoji format (src/model.rs, EmojiFormat). -/
inductive EmojiFormat where
  | UseCode
  | UseEmoji
  deriving DecidableEq, Repr

/-- A Gitmoji (src/model.rs, Gitmoji). -/
structure Gitmoji where
  emoji : String
  code : String
  name : Option String
  description : Option String
  deriving DecidableEq, Repr

/-- A Conventional Commit Emoji (src/model.rs, ConventionalEmojiCommit). -/
structure ConventionalEmojiCommit where
  emoji : String
  code : String
  type : String
  description : Option String
  deriving DecidableEq, Repr

/-- The Gitmojis configuration (src/model.rs, GitmojiConfig). -/
structure GitmojiConfig where
  auto_add : Bool
  specification : CommitSpecification
  format : EmojiFormat
  signed : Bool
  scope : Bool
  update_url : String
  last_update : Option Nat
  gitmojis : List Gitmoji
  conventional_commit_emojis : List ConventionalEmojiCommit
  deriving DecidableEq, Repr

/-- The local gitmoji configuration (src/model.rs, LocalGitmojiConfig):
every field optional, absence meaning defer to global. -/
structure LocalGitmojiConfig where
  auto_add : Option Bool
  specification : Option CommitSpecification
  format : Option EmojiFormat
  signed : Option Bool
  scope : Option Bool
  gitmojis : Option (List Gitmoji)
  conventional_commit_emojis : Option (List ConventionalEmojiCommit)
  deriving DecidableEq, Repr

/-- The derived Default of LocalGitmojiConfig (src/model.rs, derive Default):
all fields absent. -/
def LocalGitmojiConfig.default : LocalGitmojiConfig :=
  { auto_add := none
    specification := none
    format := none
    signed := none
    scope := none
    gitmojis := none
    conventional_commit_emojis := none }

/-- The Default impl of GitmojiConfig (src/model.rs, impl Default). -/
def GitmojiConfig.default : GitmojiConfig :=
  { auto_add := false
    specification := CommitSpecification.Default
    format := EmojiFormat.UseCode
    signed := false
    scope := false
    update_url := DEFAULT_URL
    last_update := none
    gitmojis := []
    conventional_commit_emojis := [] }

/-- Merge with a local configuration (src/model.rs, GitmojiConfig::merge):
each present override field overwrites the global field, in the order the
code applies them; the override specification and scope fields are not
consulted.  The Rust method mutates self in place; the embedding returns
the updated configuration and leaves both arguments untouched. -/
def GitmojiConfig.merge (c : GitmojiConfig) (local_config : LocalGitmojiConfig) :
    GitmojiConfig :=
  let c := match local_config.auto_add with
    | some auto_add => { c with auto_add := auto_add }
    | none => c
  let c := match local_config.format with
    | some format => { c with format := format }
    | none => c
  let c := match local_config.signed with
    | some signed => { c with signed := signed }
    | none => c
  let c := match local_config.gitmojis with
    | some gitmojis => { c with gitmojis := gitmojis }
    | none => c
  let c := match local_config.conventional_commit_emojis with
    | some cce => { c with conventional_commit_emojis := cce }
    | none => c
  c

/-- Set the gitmojis list (src/model.rs, GitmojiConfig::set_gitmojis):
stamps last_update with the current time and replaces the catalog.
The current time OffsetDateTime::now_utc() is passed in as the
timestamp argument. -/
def GitmojiConfig.set_gitmojis (now : Nat) (gitmojis : List Gitmoji)
    (c : GitmojiConfig) : GitmojiConfig :=
  { c with last_update := some now, gitmojis := gitmojis }

/-- The record stored for one map entry by set_conventional_commit_emojis
(src/model.rs lines 165 to 170): the map key becomes the type field and
the remaining fields come from the mapped record. -/
def injectType (kv : String × ConventionalEmojiCommit) : ConventionalEmojiCommit :=
  { emoji := kv.2.emoji, code := kv.2.code, type := kv.1, description := kv.2.description }

/-- Set conventional commit emojis (src/model.rs,
GitmojiConfig::set_conventional_commit_emojis): stamps last_update and
replaces the catalog with the flattened map, the key of each entry
injected as its type field.  The HashMap is embedded as an association
list in an unspecified iteration order. -/
def GitmojiConfig.set_conventional_commit_emojis (now : Nat)
    (m : List (String × ConventionalEmojiCommit)) (c : GitmojiConfig) :
    GitmojiConfig :=
  { c with last_update := some now,
           conventional_commit_emojis := m.map injectType }

/-- Commit title under the Default specification (src/cmd/mod.rs lines
89 to 98): with no scope the title is the token, a space and the title;
with a scope the scope string is spliced between the space and the
title, with no further separator. -/
def default_commit_title (gitmoji : String) (scope : Option String)
    (title : String) : String :=
  match scope with
  | none => gitmoji ++ " " ++ title
  | some scope => gitmoji ++ " " ++ scope ++ title

/-- Commit title under the ConventionalEmojiCommits specification
(src/cmd/mod.rs lines 115 to 122): a present non-empty scope is wrapped
in parentheses between the type name and the colon; a missing or empty
scope drops the parentheses. -/
def conventional_commit_title (emoji type_name : String)
    (scope : Option String) (title : String) : String :=
  match scope with
  | some value =>
      if value.isEmpty then emoji ++ type_name ++ ": " ++ title
      else emoji ++ type_name ++ "(" ++ value ++ "): " ++ title
  | none => emoji ++ type_name ++ ": " ++ title

/-- The decoded JSON payload of the Default catalog endpoint
(src/cmd/update.rs, GetGitmojis). -/
structure GetGitmojis where
  gitmojis : List Gitmoji
  deriving DecidableEq, Repr

/-- The decoded JSON payload of the conventional catalog endpoint
(src/cmd/update.rs, GetConventionalEmojiCommitsTypes); the HashMap is
embedded as an association list in an unspecified iteration order. -/
structure GetConventionalEmojiCommitsTypes where
  types : List (String × ConventionalEmojiCommit)
  deriving DecidableEq, Repr

/-- Modelled from the spec: the crate error enum is declared outside the
provided sources (the sources name the variants MissingConfigFile,
CannotGetProjectConfigFile and FailToCommit, and section 7 of the spec
gives the taxonomy MissingConfig, ParseError, InvalidUrl, NetworkError,
StorageError, GitCommandFailure). -/
inductive Error where
  | MissingConfigFile
  | ParseError
  | NetworkError
  | InvalidUrl
  | StorageError
  | FailToCommit
  | CannotGetProjectConfigFile (message : String)
  deriving DecidableEq, Repr

/-- Update the Default catalog (src/cmd/update.rs, update_gitmojis).
The network fetch plus JSON decode performed by get_gitmojis is passed
in as the fetch oracle, and the outcome of write_config as the store
oracle.  The second component of the result records the configurations
handed to write_config, making persistence observable: the question
mark operator on the fetch returns early, before any write. -/
def update_gitmojis (fetch : Except Error GetGitmojis)
    (store : Except Error Unit) (now : Nat) (config : GitmojiConfig) :
    Except Error GitmojiConfig × List GitmojiConfig :=
  match fetch with
  | .error e => (.error e, [])
  | .ok result =>
      let config := GitmojiConfig.set_gitmojis now result.gitmojis config
      match store with
      | .error e => (.error e, [config])
      | .ok _ => (.ok config, [config])

/-- Update the conventional catalog (src/cmd/update.rs,
update_conventional_emoji_commits), embedded like update_gitmojis. -/
def update_conventional_emoji_commits
    (fetch : Except Error GetConventionalEmojiCommitsTypes)
    (store : Except Error Unit) (now : Nat) (config : GitmojiConfig) :
    Except Error GitmojiConfig × List GitmojiConfig :=
  match fetch with
  | .error e => (.error e, [])
  | .ok result =>
      let config :=
        GitmojiConfig.set_conventional_commit_emojis now result.types config
      match store with
      | .error e => (.error e, [config])
      | .ok _ => (.ok config, [config])

/-- Read the local configuration (src/cmd/config.rs, read_local_config):
when the file at the resolved path exists, its content is read and
TOML-decoded (that read-and-decode outcome is the parse oracle); when
the file does not exist, the derived default override is returned and
no error is raised. -/
def read_local_config (fileExists : Bool)
    (localParse : Except Error LocalGitmojiConfig) :
    Except Error LocalGitmojiConfig :=
  if fileExists then localParse else .ok LocalGitmojiConfig.default

/-- Read and merge the configuration (src/cmd/config.rs, read_config):
decode the global file (the global oracle), read the local override,
and merge it into the global configuration. -/
def read_config (globalParse : Except Error GitmojiConfig)
    (fileExists : Bool) (localParse : Except Error LocalGitmojiConfig) :
    Except Error GitmojiConfig := do
  let config ← globalParse
  let local_config ← read_local_config fileExists localParse
  pure (config.merge local_config)

/-- Read the user config file or fail (src/cmd/config.rs,
read_config_or_fail): every error of read_config is collapsed to
MissingConfigFile by the map_err closure. -/
def read_config_or_fail (globalParse : Except Error GitmojiConfig)
    (fileExists : Bool) (localParse : Except Error LocalGitmojiConfig) :
    Except Error GitmojiConfig :=
  match read_config globalParse fileExists localParse with
  | .ok config => .ok config
  | .error _ => .error Error.MissingConfigFile

/-- Claim C9: merging any global configuration with the derived default
(all-absent) local override returns the global configuration unchanged
(src/model.rs, GitmojiConfig::merge with LocalGitmojiConfig::default). -/
theorem merge_default_override (g : GitmojiConfig) :
    g.merge LocalGitmojiConfig.default = g := by
  cases g
  rfl

/-- Claim C1: for every global configuration and local override, each of
the five merged fields auto_add, format, signed, gitmojis and
conventional_commit_emojis equals the override value whenever the
override carries one, whatever the global value (sequences are replaced
wholesale); and, settling the question the claim raises, override-wins
does NOT extend to the override specification and scope fields: the
merge ignores them and keeps the global values
(src/model.rs, GitmojiConfig::merge). -/
theorem merge_override_wins (g : GitmojiConfig) (l : LocalGitmojiConfig) :
    (∀ a, l.auto_add = some a → (g.merge l).auto_add = a) ∧
    (∀ f, l.format = some f → (g.merge l).format = f) ∧
    (∀ s, l.signed = some s → (g.merge l).signed = s) ∧
    (∀ gs, l.gitmojis = some gs → (g.merge l).gitmojis = gs) ∧
    (∀ cs, l.conventional_commit_emojis = some cs →
      (g.merge l).conventional_commit_emojis = cs) ∧
    (g.merge l).specification = g.specification ∧
    (g.merge l).scope = g.scope := by
  obtain ⟨a, sp, f, si, sc, gi, ce⟩ := l
  cases a <;> cases f <;> cases si <;> cases gi <;> cases ce <;>
    simp [GitmojiConfig.merge]

/-- Witness for claim C1 at a concrete input: an override carrying
auto_add = some true wins over a global auto_add = false. -/
theorem merge_override_wins_witness :
    ({ LocalGitmojiConfig.default with auto_add := some true }).auto_add
        = some true ∧
    (GitmojiConfig.default.merge
        { LocalGitmojiConfig.default with auto_add := some true }).auto_add
        = true :=
  ⟨rfl, (merge_override_wins GitmojiConfig.default
      { LocalGitmojiConfig.default with auto_add := some true }).1 true rfl⟩

/-- Claim C2: the merge leaves the global specification, scope,
update_url and last_update fields unchanged for every local override,
in particular when the override carries present specification or scope
values; the embedding of merge is a pure function of its two arguments,
so the local override itself is not mutated
(src/model.rs, GitmojiConfig::merge). -/
theorem merge_frame (g : GitmojiConfig) (l : LocalGitmojiConfig) :
    (g.merge l).specification = g.specification ∧
    (g.merge l).scope = g.scope ∧
    (g.merge l).update_url = g.update_url ∧
    (g.merge l).last_update = g.last_update := by
  obtain ⟨a, sp, f, si, sc, gi, ce⟩ := l
  cases a <;> cases f <;> cases si <;> cases gi <;> cases ce <;>
    simp [GitmojiConfig.merge]

/-- Claim C3: under the Default specification, a present non-empty scope
yields token, space, scope, title concatenated in that order, and a
missing or empty scope yields token, space, title; including the two
concrete examples of the spec (src/cmd/mod.rs lines 89 to 98). -/
theorem default_title_spec (t s : String) (scope : Option String) :
    (∀ c, scope = some c → c ≠ "" →
      default_commit_title t scope s = t ++ " " ++ c ++ s) ∧
    (scope = none ∨ scope = some "" →
      default_commit_title t scope s = t ++ " " ++ s) ∧
    default_commit_title ":sparkles:" (some "core/") "add x"
      = ":sparkles: core/add x" ∧
    default_commit_title ":sparkles:" none "add x" = ":sparkles: add x" := by
  refine ⟨?_, ?_, rfl, rfl⟩
  · rintro c rfl _
    rfl
  · rintro (rfl | rfl)
    · rfl
    · show t ++ " " ++ "" ++ s = t ++ " " ++ s
      rw [String.append_empty]

/-- Witness for claim C3 at the spec's concrete input. -/
theorem default_title_spec_witness :
    "core/" ≠ "" ∧
    default_commit_title ":sparkles:" (some "core/") "add x"
      = ":sparkles: core/add x" :=
  ⟨by decide,
   (default_title_spec ":sparkles:" "add x" (some "core/")).1 "core/" rfl
     (by decide)⟩

/-- Claim C4: under the ConventionalEmojiCommits specification, a
present non-empty scope yields token, type, parenthesised scope, colon
space, title; a missing or empty scope yields token, type, colon space,
title; including the two concrete examples of the spec
(src/cmd/mod.rs lines 115 to 122). -/
theorem conventional_title_spec (t y s : String) (scope : Option String) :
    (∀ c, scope = some c → c ≠ "" →
      conventional_commit_title t y scope s
        = t ++ y ++ "(" ++ c ++ "): " ++ s) ∧
    (scope = none ∨ scope = some "" →
      conventional_commit_title t y scope s = t ++ y ++ ": " ++ s) ∧
    conventional_commit_title ":art:" "feat" (some "ui") "new button"
      = ":art:feat(ui): new button" ∧
    conventional_commit_title ":art:" "feat" none "new button"
      = ":art:feat: new button" := by
  refine ⟨?_, ?_, rfl, rfl⟩
  · rintro c rfl hc
    have h : c.isEmpty = false := by
      rcases hb : c.isEmpty with _ | _
      · rfl
      · exact absurd ((String.isEmpty_iff c).mp hb) hc
    simp [conventional_commit_title, h]
  · rintro (rfl | rfl) <;> rfl

/-- Witness for claim C4 at the spec's concrete input. -/
theorem conventional_title_spec_witness :
    "ui" ≠ "" ∧
    conventional_commit_title ":art:" "feat" (some "ui") "new button"
      = ":art:feat(ui): new button" :=
  ⟨by decide,
   (conventional_title_spec ":art:" "feat" "new button" (some "ui")).1 "ui" rfl
     (by decide)⟩

/-- Claim C10: set_gitmojis changes only the gitmojis and last_update
fields and set_conventional_commit_emojis changes only the
conventional_commit_emojis and last_update fields; in particular each
setter leaves the other specification's catalog untouched
(src/model.rs, GitmojiConfig::set_gitmojis and
GitmojiConfig::set_conventional_commit_emojis). -/
theorem set_catalog_frame (c : GitmojiConfig) (now : Nat) (gs : List Gitmoji)
    (m : List (String × ConventionalEmojiCommit)) :
    ((GitmojiConfig.set_gitmojis now gs c).auto_add = c.auto_add ∧
     (GitmojiConfig.set_gitmojis now gs c).specification = c.specification ∧
     (GitmojiConfig.set_gitmojis now gs c).format = c.format ∧
     (GitmojiConfig.set_gitmojis now gs c).signed = c.signed ∧
     (GitmojiConfig.set_gitmojis now gs c).scope = c.scope ∧
     (GitmojiConfig.set_gitmojis now gs c).update_url = c.update_url ∧
     (GitmojiConfig.set_gitmojis now gs c).conventional_commit_emojis
       = c.conventional_commit_emojis ∧
     (GitmojiConfig.set_gitmojis now gs c).gitmojis = gs ∧
     (GitmojiConfig.set_gitmojis now gs c).last_update = some now) ∧
    ((GitmojiConfig.set_conventional_commit_emojis now m c).auto_add
       = c.auto_add ∧
     (GitmojiConfig.set_conventional_commit_emojis now m c).specification
       = c.specification ∧
     (GitmojiConfig.set_conventional_commit_emojis now m c).format = c.format ∧
     (GitmojiConfig.set_conventional_commit_emojis now m c).signed = c.signed ∧
     (GitmojiConfig.set_conventional_commit_emojis now m c).scope = c.scope ∧
     (GitmojiConfig.set_conventional_commit_emojis now m c).update_url
       = c.update_url ∧
     (GitmojiConfig.set_conventional_commit_emojis now m c).gitmojis
       = c.gitmojis ∧
     (GitmojiConfig.set_conventional_commit_emojis now m c).last_update
       = some now) :=
  ⟨⟨rfl, rfl, rfl, rfl, rfl, rfl, rfl, rfl, rfl⟩,
   ⟨rfl, rfl, rfl, rfl, rfl, rfl, rfl, rfl⟩⟩

/-- Claim C5: when the fetch or decode step fails, each refresh
operation returns the error and hands nothing to the config store, so
no partial write occurs and the gitmojis, conventional_commit_emojis
and last_update of the persisted and of the caller's configuration are
unchanged (src/cmd/update.rs, update_gitmojis and
update_conventional_emoji_commits, early return at the question mark
before set_gitmojis and write_config). -/
theorem update_failure_no_write (c : GitmojiConfig) (e : Error)
    (store : Except Error Unit) (now : Nat) :
    update_gitmojis (.error e) store now c = (.error e, []) ∧
    update_conventional_emoji_commits (.error e) store now c
      = (.error e, []) :=
  ⟨rfl, rfl⟩

/-- Claim C6: when a refresh succeeds, the returned configuration has
the active specification's catalog replaced wholesale by the fetched
one (the conventional catalog flattened with the map key injected as
the type field), has last_update set to the present current time, and
is exactly the configuration handed to the config store
(src/cmd/update.rs, update_gitmojis and
update_conventional_emoji_commits). -/
theorem update_success_replaces (c : GitmojiConfig) (g : GetGitmojis)
    (m : GetConventionalEmojiCommitsTypes) (now : Nat) :
    (∃ c1, update_gitmojis (.ok g) (.ok ()) now c = (.ok c1, [c1]) ∧
      c1.gitmojis = g.gitmojis ∧ c1.last_update = some now) ∧
    (∃ c2, update_conventional_emoji_commits (.ok m) (.ok ()) now c
        = (.ok c2, [c2]) ∧
      c2.conventional_commit_emojis = m.types.map injectType ∧
      c2.last_update = some now) :=
  ⟨⟨_, rfl, rfl, rfl⟩, ⟨_, rfl, rfl, rfl⟩⟩

/-- Claim C7: for a map whose keys are distinct (the HashMap invariant),
set_conventional_commit_emojis stores one entry per map entry, each
entry's type field is its map key (overriding whatever type value the
mapped record carried) with emoji, code and description taken from the
record, every map entry is represented, each key occurs exactly once,
and nothing else is stored; the order is whatever iteration order the
association list stands for (src/model.rs,
GitmojiConfig::set_conventional_commit_emojis). -/
theorem set_conventional_commit_emojis_spec (c : GitmojiConfig) (now : Nat)
    (m : List (String × ConventionalEmojiCommit))
    (hnd : (m.map Prod.fst).Nodup) :
    (GitmojiConfig.set_conventional_commit_emojis now m c).conventional_commit_emojis.length
      = m.length ∧
    (∀ kv ∈ m,
      injectType kv
        ∈ (GitmojiConfig.set_conventional_commit_emojis now m c).conventional_commit_emojis ∧
      ((GitmojiConfig.set_conventional_commit_emojis now m c).conventional_commit_emojis.countP
        (fun entry => entry.type == kv.1)) = 1) ∧
    (∀ entry ∈ (GitmojiConfig.set_conventional_commit_emojis now m c).conventional_commit_emojis,
      ∃ kv ∈ m, entry = injectType kv) := by
  refine ⟨List.length_map m injectType, fun kv hkv => ⟨?_, ?_⟩, fun entry h => ?_⟩
  · exact List.mem_map_of_mem injectType hkv
  · have h1 : kv.1 ∈ m.map Prod.fst := List.mem_map_of_mem Prod.fst hkv
    have h2 : (m.map Prod.fst).count kv.1 = 1 :=
      List.count_eq_one_of_mem hnd h1
    calc ((m.map injectType).countP (fun entry => entry.type == kv.1))
        = m.countP (fun p => p.1 == kv.1) := by rw [List.countP_map]; rfl
      _ = (m.map Prod.fst).countP (fun x => x == kv.1) := by
            rw [List.countP_map]; rfl
      _ = (m.map Prod.fst).count kv.1 := rfl
      _ = 1 := h2
  · obtain ⟨kv, hkv, hinj⟩ := List.mem_map.mp h
    exact ⟨kv, hkv, hinj.symm⟩

/-- Witness for claim C7 at a concrete input: a single-entry map under
the key feat whose record carries the inner type value ignored; the
stored entry count is one and the key occurrence count is one. -/
theorem set_conventional_commit_emojis_spec_witness :
    ((["feat"] : List String).Nodup) ∧
    (GitmojiConfig.set_conventional_commit_emojis 7
        [("feat", { emoji := "E", code := ":art:", type := "ignored",
                    description := none })]
        GitmojiConfig.default).conventional_commit_emojis.length = 1 :=
  ⟨by decide,
   (set_conventional_commit_emojis_spec GitmojiConfig.default 7
      [("feat", { emoji := "E", code := ":art:", type := "ignored",
                  description := none })]
      (by decide)).1⟩

/-- Counterexample for claim C8: with the global file decoding
successfully and an existing but malformed local override file, the
public configuration-loading operation read_config_or_fail surfaces
MissingConfigFile to its caller, not ParseError, because its map_err
collapses every error (src/cmd/config.rs line 181). -/
theorem read_config_or_fail_counterexample :
    read_config_or_fail (.ok GitmojiConfig.default) true
        (.error Error.ParseError)
      = .error Error.MissingConfigFile ∧
    Error.MissingConfigFile ≠ Error.ParseError :=
  ⟨rfl, by decide⟩

/-- Claim C8 amended: when the local override file does not exist the
read succeeds with the default all-absent override merged in, whatever
the parse oracle would have said (absence is not an error); when the
file exists and is malformed, configuration loading fails and the parse
error propagates unchanged out of read_config, but read_config_or_fail
reports it to its caller as MissingConfigFile
(src/cmd/config.rs, read_local_config, read_config and
read_config_or_fail). -/
theorem read_config_local_override (g : GitmojiConfig)
    (lp : Except Error LocalGitmojiConfig) (e : Error) :
    read_config (.ok g) false lp = .ok (g.merge LocalGitmojiConfig.default) ∧
    read_config (.ok g) true (.error e) = .error e ∧
    read_config_or_fail (.ok g) true (.error e)
      = .error Error.MissingConfigFile :=
  ⟨rfl, rfl, rfl⟩
